import Mathlib

/-!
Shallow embedding of the Hypersave SDK core: the error taxonomy and
HTTP-status classification (`src/src/errors.ts`) and the request
dispatcher (`HypersaveClient.request` and constructor in the client
source).  JavaScript runtime values flowing through the dispatcher are
modelled by `JsonValue`; `undefined` is modelled by `Option`; JS
truthiness by `truthy`; the JS `a || b` operator by `jsSelect`/`jsOrStr`.
-/

/-- JSON / JavaScript runtime values (numbers restricted to integers). -/
inductive JsonValue where
  | null : JsonValue
  | bool (b : Bool) : JsonValue
  | num (n : Int) : JsonValue
  | str (s : String) : JsonValue
  | arr (elems : List JsonValue) : JsonValue
  | obj (fields : List (String × JsonValue)) : JsonValue

/-- JavaScript truthiness of a value (empty string, 0, false, null are falsy;
arrays and objects are always truthy). -/
def truthy : JsonValue → Bool
  | .null => false
  | .bool b => b
  | .num n => n != 0
  | .str s => s != ""
  | .arr _ => true
  | .obj _ => true

/-- Property access `v[k]` on a runtime value: `none` models `undefined`
(non-objects and missing keys). -/
def jGet : JsonValue → String → Option JsonValue
  | .obj fields, k => lookupField fields k
  | _, _ => none
where
  lookupField : List (String × JsonValue) → String → Option JsonValue
    | [], _ => none
    | (k', v) :: rest, k => if k' = k then some v else lookupField rest k

/-- JS `a || b` where `a` may be `undefined` (`none`): first operand if
truthy, else the second. -/
def jsSelect (a : Option JsonValue) (b : JsonValue) : JsonValue :=
  match a with
  | some v => if truthy v then v else b
  | none => b

/-- JS `a || b` on strings (empty string is falsy). -/
def jsOrStr (a : String) (b : String) : String :=
  if a = "" then b else a

/-- Is `needle` a contiguous sublist of `hay`? -/
def subList (needle : List Char) : List Char → Bool
  | [] => needle.isEmpty
  | c :: rest => needle.isPrefixOf (c :: rest) || subList needle rest

/-- JS `s.includes(t)` : substring containment. -/
def strIncludes (s t : String) : Bool :=
  subList t.data s.data

mutual
/-- JS `String(v)` coercion (what `Error`'s constructor stores as the
message when handed a non-string). -/
def jsString : JsonValue → String
  | .null => "null"
  | .bool b => if b then "true" else "false"
  | .num n => toString n
  | .str s => s
  | .arr xs => jsStringArr xs
  | .obj _ => "[object Object]"

/-- JS array-to-string: elements joined by commas, `null` printing empty. -/
def jsStringArr : List JsonValue → String
  | [] => ""
  | [.null] => ""
  | [v] => jsString v
  | .null :: rest => "," ++ jsStringArr rest
  | v :: rest => jsString v ++ "," ++ jsStringArr rest
end

/-- A raw (non-SDK) JavaScript exception: its `name` and `message`. -/
structure JsRaw where
  name : String
  message : String
deriving DecidableEq

/-- One flattened record for the `HypersaveError` class hierarchy of
`src/src/errors.ts`: `name` is the class-name discriminant, the remaining
fields are the union of base and subclass fields (a subclass leaves the
fields it does not declare at `none`). -/
structure HypersaveError where
  name : String
  message : String
  statusCode : Option Int
  cause : Option JsRaw
  details : Option JsonValue
  resourceType : Option String
  resourceId : Option String
  retryAfter : Option JsonValue
  timeout : Option JsonValue
  rawResponse : Option String

/-- `new HypersaveError(message, statusCode?, cause?)` — the base class,
the "Generic" kind of the spec. -/
def mkHypersaveError (message : String) (statusCode : Option Int)
    (cause : Option JsRaw) : HypersaveError :=
  { name := "HypersaveError", message, statusCode, cause,
    details := none, resourceType := none, resourceId := none,
    retryAfter := none, timeout := none, rawResponse := none }

/-- `new AuthenticationError(message)` — `super(message, 401)`. -/
def AuthenticationError (message : String) : HypersaveError :=
  { mkHypersaveError message (some 401) none with name := "AuthenticationError" }

/-- `new ValidationError(message, details?)` — `super(message, 400)`. -/
def ValidationError (message : String) (details : Option JsonValue) : HypersaveError :=
  { mkHypersaveError message (some 400) none with name := "ValidationError", details }

/-- `new NotFoundError(message, resourceType?, resourceId?)` — `super(message, 404)`. -/
def NotFoundError (message : String) (resourceType resourceId : Option String) :
    HypersaveError :=
  { mkHypersaveError message (some 404) none with
    name := "NotFoundError", resourceType, resourceId }

/-- `new RateLimitError(message, retryAfter?)` — `super(message, 429)`. -/
def RateLimitError (message : String) (retryAfter : Option JsonValue) : HypersaveError :=
  { mkHypersaveError message (some 429) none with name := "RateLimitError", retryAfter }

/-- `new TimeoutError(timeout, message?)` — message defaults (via JS `||`)
to "Request timed out after NNNms"; `super(…, 408)`. -/
def TimeoutError (timeout : JsonValue) (message : Option String) : HypersaveError :=
  let dflt := "Request timed out after " ++ jsString timeout ++ "ms"
  let msg := match message with
    | some m => jsOrStr m dflt
    | none => dflt
  { mkHypersaveError msg (some 408) none with
    name := "TimeoutError", timeout := some timeout }

/-- `new NetworkError(message, cause?)` — `super(message, undefined, cause)`. -/
def NetworkError (message : String) (cause : Option JsRaw) : HypersaveError :=
  { mkHypersaveError message none cause with name := "NetworkError" }

/-- `new ServerError(message, statusCode)` — `super(message, statusCode)`. -/
def ServerError (message : String) (statusCode : Int) : HypersaveError :=
  { mkHypersaveError message (some statusCode) none with name := "ServerError" }

/-- `new ParseError(message, rawResponse?)` — `super(message, undefined)`. -/
def ParseError (message : String) (rawResponse : Option String) : HypersaveError :=
  { mkHypersaveError message none none with name := "ParseError", rawResponse }

/-- `createErrorFromStatus` of `src/src/errors.ts` (lines 133–158):
the HTTP-status-to-error mapping.  `details?.retryAfter` and
`details?.timeout || 30000` are modelled by `jGet` and `jsSelect`. -/
def createErrorFromStatus (statusCode : Int) (message : String)
    (details : Option JsonValue) : HypersaveError :=
  match statusCode with
  | 400 => ValidationError message details
  | 401 => AuthenticationError message
  | 403 => AuthenticationError message
  | 404 => NotFoundError message none none
  | 429 => RateLimitError message (details.bind (fun d => jGet d "retryAfter"))
  | 408 => TimeoutError (jsSelect (details.bind (fun d => jGet d "timeout")) (.num 30000))
      (some message)
  | 500 => ServerError message statusCode
  | 502 => ServerError message statusCode
  | 503 => ServerError message statusCode
  | 504 => ServerError message statusCode
  | _ => mkHypersaveError message (some statusCode) none

/-- `isHypersaveError` / class names of the taxonomy (for reference: the
"Generic" kind of the spec is the base class name `HypersaveError`). -/
def taxonomyNames : List String :=
  ["HypersaveError", "AuthenticationError", "ValidationError", "NotFoundError",
   "RateLimitError", "TimeoutError", "NetworkError", "ServerError", "ParseError"]

/-- The `HypersaveConfig` interface of `src/src/index.ts` (lines 125–134). -/
structure HypersaveConfig where
  apiKey : String
  baseUrl : Option String
  timeout : Option Int
  userId : Option String

/-- The private per-instance configuration of `HypersaveClient`. -/
structure HypersaveClient where
  apiKey : String
  baseUrl : String
  timeout : Int
  defaultUserId : Option String

def DEFAULT_BASE_URL : String := "https://api.hypersave.io"

def DEFAULT_TIMEOUT : Int := 30000

/-- `.replace(/\x2f$/, "")` : drop a single trailing slash if present. -/
def stripTrailingSlash (s : String) : String :=
  if s.data.getLast? = some '/' then String.mk s.data.dropLast else s

/-- JS `a || b` for an optional string (`undefined` and `""` are falsy). -/
def jsOrStrOpt (a : Option String) (b : String) : String :=
  match a with
  | some s => jsOrStr s b
  | none => b

/-- JS `a || b` for an optional number (`undefined` and `0` are falsy). -/
def jsOrIntOpt (a : Option Int) (b : Int) : Int :=
  match a with
  | some n => if n = 0 then b else n
  | none => b

/-- The `HypersaveClient` constructor (client source lines 80–92):
reject an empty API key, default and normalize `baseUrl`, default the
timeout, record the default user id. -/
def mkClient (config : HypersaveConfig) : Except HypersaveError HypersaveClient :=
  if config.apiKey = "" then
    .error (AuthenticationError "API key is required")
  else
    .ok { apiKey := config.apiKey,
          baseUrl := stripTrailingSlash (jsOrStrOpt config.baseUrl DEFAULT_BASE_URL),
          timeout := jsOrIntOpt config.timeout DEFAULT_TIMEOUT,
          defaultUserId := config.userId }

/-- Truthiness of a possibly-`undefined` value. -/
def jsTruthyOpt : Option JsonValue → Bool
  | none => false
  | some v => truthy v

/-- JS `a || b` where both operands may be `undefined`. -/
def jsSelectOpt (a b : Option JsonValue) : Option JsonValue :=
  match a with
  | some v => if truthy v then some v else b
  | none => b

/-- `options?.userId || body?.userId || this.defaultUserId` (client source
line 118). -/
def effectiveUserId (c : HypersaveClient) (body : Option JsonValue)
    (optUserId : Option String) : Option JsonValue :=
  jsSelectOpt (optUserId.map .str)
    (jsSelectOpt (body.bind (fun b => jGet b "userId")) (c.defaultUserId.map .str))

/-- The `x-user-id` header value: present only when the effective user id
is truthy (`if (userId)`, client source lines 119–121). -/
def userIdHeader (c : HypersaveClient) (body : Option JsonValue)
    (optUserId : Option String) : Option JsonValue :=
  match effectiveUserId c body optUserId with
  | some v => if truthy v then some v else none
  | none => none

/-- The headers built by `request` (client source lines 112–121). -/
def requestHeaders (c : HypersaveClient) (body : Option JsonValue)
    (optUserId : Option String) : List (String × String) :=
  let base := [("Content-Type", "application/json"), ("X-API-Key", c.apiKey)]
  match userIdHeader c body optUserId with
  | some v => base ++ [("x-user-id", jsString v)]
  | none => base

/-- `response.ok` : HTTP status in the 200–299 success range. -/
def respOk (status : Int) : Bool :=
  decide (200 ≤ status) && decide (status < 300)

/-- The observable pieces of a `fetch` `Response` the dispatcher consumes:
status, content-type header, the raw text body, and the result of
`response.json()` (`.error` modelling the exception thrown on a body that
is not valid JSON). -/
structure HttpResponse where
  status : Int
  contentType : Option String
  rawText : String
  parsed : Except JsRaw JsonValue

/-- An exception flowing into the `catch` block of `request`: either an
SDK error thrown by the try-block itself or a raw JS exception. -/
inductive Thrown where
  | hypersave (e : HypersaveError)
  | js (e : JsRaw)

/-- `error.name` as seen by the catch block. -/
def Thrown.errName : Thrown → String
  | .hypersave e => e.name
  | .js e => e.name

/-- `error.message` as seen by the catch block. -/
def Thrown.errMessage : Thrown → String
  | .hypersave e => e.message
  | .js e => e.message

/-- The exception as a raw record, for attaching as `cause`. -/
def Thrown.toRaw : Thrown → JsRaw
  | .hypersave e => ⟨e.name, e.message⟩
  | .js e => e

/-- Negation of `!contentType || !contentType.includes('application/json')`
(client source line 134): is the response declared as JSON? -/
def isJsonCT : Option String → Bool
  | none => false
  | some ct => strIncludes ct "application/json"

/-- `data.success === false` : strict triple-equality with the boolean
`false` (client source line 145). -/
def successIsFalse (data : JsonValue) : Bool :=
  match jGet data "success" with
  | some (.bool false) => true
  | _ => false

/-- `data.error || data.message || 'Request failed'` (client source
line 146). -/
def resolveErrorMessage (data : JsonValue) : JsonValue :=
  jsSelect (jGet data "error") (jsSelect (jGet data "message") (.str "Request failed"))

/-- The body of the `try` block of `request` after `fetch` returned a
response (client source lines 132–150): content-type branching, the
non-JSON paths, the two API-level failure signals, and message / details
resolution.  Throws `Thrown` values that the catch block will translate. -/
def handleResponse (resp : HttpResponse) : Except Thrown JsonValue :=
  if !isJsonCT resp.contentType then
    let text := resp.rawText
    if !respOk resp.status then
      .error (.hypersave
        (createErrorFromStatus resp.status (jsOrStr text "Request failed") none))
    else
      .error (.hypersave (ParseError "Expected JSON response" (some text)))
  else
    match resp.parsed with
    | .error e => .error (.js e)
    | .ok data =>
      if !respOk resp.status || successIsFalse data then
        .error (.hypersave
          (createErrorFromStatus resp.status (jsString (resolveErrorMessage data))
            (jGet data "details")))
      else
        .ok data

/-- The `catch` block of `request` (client source lines 151–171):
abort → Timeout; TypeError mentioning fetch → Network; SDK errors
re-thrown unchanged; anything else wrapped as a Generic base error. -/
def catchBlock (timeout : Int) (e : Thrown) : HypersaveError :=
  if e.errName == "AbortError" then
    TimeoutError (.num timeout) none
  else if (e.errName == "TypeError") && strIncludes e.errMessage "fetch" then
    NetworkError "Failed to connect to Hypersave API" (some e.toRaw)
  else
    match e with
    | .hypersave he => he
    | .js raw => mkHypersaveError (jsOrStr raw.message "Unknown error") none (some raw)

/-- Outcome of the `fetch` call itself: a response, or a thrown raw
exception (abort, transport failure, …). -/
inductive FetchResult where
  | success (resp : HttpResponse)
  | failure (e : JsRaw)

/-- `HypersaveClient.request` (client source lines 101–172) as a function
of the client configuration and the fetch outcome.  `method`, `path`,
`body` and the per-call user id do not influence the returned value (they
shape the outgoing request, modelled by `requestHeaders`); they are kept
to mirror the signature. -/
def HypersaveClient.request (c : HypersaveClient) (_method _path : String)
    (_body : Option JsonValue) (_optUserId : Option String)
    (fetch : FetchResult) : Except HypersaveError JsonValue :=
  match fetch with
  | .failure raw => .error (catchBlock c.timeout (.js raw))
  | .success resp =>
    match handleResponse resp with
    | .ok v => .ok v
    | .error t => .error (catchBlock c.timeout t)

/-! ## Helper lemmas -/

/-- Errors built by `createErrorFromStatus` carry a taxonomy class name,
never the name of a raw runtime exception. -/
theorem createErrorFromStatus_name_safe (s : Int) (m : String) (d : Option JsonValue) :
    (createErrorFromStatus s m d).name ≠ "AbortError" ∧
    (createErrorFromStatus s m d).name ≠ "TypeError" := by
  unfold createErrorFromStatus
  split <;>
    exact ⟨by simp [ValidationError, AuthenticationError, NotFoundError,
        RateLimitError, TimeoutError, ServerError, mkHypersaveError],
      by simp [ValidationError, AuthenticationError, NotFoundError,
        RateLimitError, TimeoutError, ServerError, mkHypersaveError]⟩

/-- The catch block re-throws an SDK error unchanged when its name is not
one of the two raw-exception names it intercepts. -/
theorem catchBlock_rethrow (t : Int) (he : HypersaveError)
    (h1 : he.name ≠ "AbortError") (h2 : he.name ≠ "TypeError") :
    catchBlock t (.hypersave he) = he := by
  unfold catchBlock Thrown.errName Thrown.errMessage
  simp [h1, h2]

/-- Every SDK error thrown by the try-block body is re-raised unchanged by
the catch block. -/
theorem request_rethrows_internal (c : HypersaveClient) (me pa : String)
    (b : Option JsonValue) (ou : Option String) (resp : HttpResponse)
    (he : HypersaveError) (h : handleResponse resp = .error (.hypersave he)) :
    c.request me pa b ou (.success resp) = .error he := by
  have hname : he.name ≠ "AbortError" ∧ he.name ≠ "TypeError" := by
    unfold handleResponse at h
    split at h
    · split at h
      · cases h
        exact createErrorFromStatus_name_safe _ _ _
      · cases h
        exact ⟨by simp [ParseError, mkHypersaveError], by simp [ParseError, mkHypersaveError]⟩
    · split at h
      · cases h
      · split at h
        · cases h
          exact createErrorFromStatus_name_safe _ _ _
        · cases h
  have hstep : c.request me pa b ou (.success resp) =
      match handleResponse resp with
      | .ok v => .ok v
      | .error t => .error (catchBlock c.timeout t) := rfl
  rw [hstep, h]
  show Except.error (catchBlock c.timeout (Thrown.hypersave he)) = Except.error he
  rw [catchBlock_rethrow c.timeout he hname.1 hname.2]

/-! ## Claims about the error taxonomy -/

/-- Claim C1: `createErrorFromStatus` realizes the status table: 400 gives
Validation carrying message and details; 401 and 403 give Authentication;
404 NotFound; 408 Timeout; 429 RateLimit; 500/502/503/504 Server carrying
the status code; every other code the Generic base error carrying message
and status code.  Totality and determinism hold by construction: the
embedding is a total Lean function, so identical inputs give identical
results and no input is unmapped. -/
theorem c1_createErrorFromStatus_table (s : Int) (m : String) (d : Option JsonValue) :
    (s = 400 → (createErrorFromStatus s m d).name = "ValidationError" ∧
      (createErrorFromStatus s m d).message = m ∧
      (createErrorFromStatus s m d).details = d) ∧
    ((s = 401 ∨ s = 403) → (createErrorFromStatus s m d).name = "AuthenticationError") ∧
    (s = 404 → (createErrorFromStatus s m d).name = "NotFoundError") ∧
    (s = 408 → (createErrorFromStatus s m d).name = "TimeoutError") ∧
    (s = 429 → (createErrorFromStatus s m d).name = "RateLimitError") ∧
    ((s = 500 ∨ s = 502 ∨ s = 503 ∨ s = 504) →
      (createErrorFromStatus s m d).name = "ServerError" ∧
      (createErrorFromStatus s m d).statusCode = some s) ∧
    (s ≠ 400 → s ≠ 401 → s ≠ 403 → s ≠ 404 → s ≠ 408 → s ≠ 429 →
      s ≠ 500 → s ≠ 502 → s ≠ 503 → s ≠ 504 →
      (createErrorFromStatus s m d).name = "HypersaveError" ∧
      (createErrorFromStatus s m d).message = m ∧
      (createErrorFromStatus s m d).statusCode = some s) := by
  refine ⟨?_, ?_, ?_, ?_, ?_, ?_, ?_⟩
  · rintro rfl; exact ⟨rfl, rfl, rfl⟩
  · rintro (rfl | rfl) <;> rfl
  · rintro rfl; rfl
  · rintro rfl; rfl
  · rintro rfl; rfl
  · rintro (rfl | rfl | rfl | rfl) <;> exact ⟨rfl, rfl⟩
  · intro h400 h401 h403 h404 h408 h429 h500 h502 h503 h504
    unfold createErrorFromStatus
    split <;> first
      | omega
      | exact ⟨rfl, rfl, rfl⟩

/-- Witness for C1 at concrete inputs covering each row of the table. -/
theorem c1_witness :
    (createErrorFromStatus 400 "w" none).name = "ValidationError" ∧
    (createErrorFromStatus 401 "w" none).name = "AuthenticationError" ∧
    (createErrorFromStatus 403 "w" none).name = "AuthenticationError" ∧
    (createErrorFromStatus 404 "w" none).name = "NotFoundError" ∧
    (createErrorFromStatus 408 "w" none).name = "TimeoutError" ∧
    (createErrorFromStatus 429 "w" none).name = "RateLimitError" ∧
    (createErrorFromStatus 503 "w" none).name = "ServerError" ∧
    (createErrorFromStatus 418 "w" none).name = "HypersaveError" ∧
    (createErrorFromStatus 418 "w" none).statusCode = some 418 :=
  ⟨((c1_createErrorFromStatus_table 400 "w" none).1 rfl).1,
   (c1_createErrorFromStatus_table 401 "w" none).2.1 (Or.inl rfl),
   (c1_createErrorFromStatus_table 403 "w" none).2.1 (Or.inr rfl),
   (c1_createErrorFromStatus_table 404 "w" none).2.2.1 rfl,
   (c1_createErrorFromStatus_table 408 "w" none).2.2.2.1 rfl,
   (c1_createErrorFromStatus_table 429 "w" none).2.2.2.2.1 rfl,
   ((c1_createErrorFromStatus_table 503 "w" none).2.2.2.2.2.1
     (Or.inr (Or.inr (Or.inl rfl)))).1,
   ((c1_createErrorFromStatus_table 418 "w" none).2.2.2.2.2.2 (by decide) (by decide)
     (by decide) (by decide) (by decide) (by decide) (by decide) (by decide)
     (by decide) (by decide)).1,
   ((c1_createErrorFromStatus_table 418 "w" none).2.2.2.2.2.2 (by decide) (by decide)
     (by decide) (by decide) (by decide) (by decide) (by decide) (by decide)
     (by decide) (by decide)).2.2⟩

/-- Claim C8: both 401 and 403 map to an Authentication error whose
`statusCode` is unconditionally 401 (set by the `AuthenticationError`
constructor), so a 403 origin is not recoverable: the records produced
for 401 and 403 are identical. -/
theorem c8_auth_statusCode_always_401 (m : String) (d : Option JsonValue) :
    (createErrorFromStatus 403 m d).name = "AuthenticationError" ∧
    (createErrorFromStatus 403 m d).statusCode = some 401 ∧
    (createErrorFromStatus 403 m d).statusCode ≠ some 403 ∧
    createErrorFromStatus 403 m d = createErrorFromStatus 401 m d :=
  ⟨rfl, rfl, show some (401 : Int) ≠ some (403 : Int) by decide, rfl⟩

/-- Counterexample to Claim C6 as stated: with `details = {timeout: 0}` the
field is present, but the produced Timeout error carries 30000, not 0 —
the source uses the falsy-coalescing `details?.timeout || 30000`, not a
nullish `??`. -/
theorem c6_counterexample :
    (createErrorFromStatus 408 "Request failed"
        (some (.obj [("timeout", .num 0)]))).timeout ≠ some (.num 0) := by
  intro h
  have h1 := Option.some.inj h
  have h2 := JsonValue.num.inj h1
  exact absurd h2 (by decide)

/-- Claim C6 (amended): for status 408 the Timeout error's timeout field
equals `details.timeout` when that field is present and truthy (nonzero),
and 30000 otherwise — a present falsy value such as 0 is replaced by the
default, because the source coalesces with `||`. -/
theorem c6_timeout408_field (m : String) (d : Option JsonValue) :
    (d.bind (fun x => jGet x "timeout") = none →
      (createErrorFromStatus 408 m d).timeout = some (.num 30000)) ∧
    (∀ v, d.bind (fun x => jGet x "timeout") = some v → truthy v = false →
      (createErrorFromStatus 408 m d).timeout = some (.num 30000)) ∧
    (∀ v, d.bind (fun x => jGet x "timeout") = some v → truthy v = true →
      (createErrorFromStatus 408 m d).timeout = some v) := by
  refine ⟨?_, ?_, ?_⟩
  · intro h
    show some (jsSelect (d.bind (fun x => jGet x "timeout")) (.num 30000)) =
      some (.num 30000)
    rw [h]
    rfl
  · intro v h hv
    show some (jsSelect (d.bind (fun x => jGet x "timeout")) (.num 30000)) =
      some (.num 30000)
    rw [h]
    simp [jsSelect, hv]
  · intro v h hv
    show some (jsSelect (d.bind (fun x => jGet x "timeout")) (.num 30000)) = some v
    rw [h]
    simp [jsSelect, hv]

/-- Witness for C6 (amended) at a missing, a falsy and a truthy
`details.timeout`. -/
theorem c6_witness :
    (createErrorFromStatus 408 "w" none).timeout = some (.num 30000) ∧
    (createErrorFromStatus 408 "w"
      (some (.obj [("timeout", .str "")]))).timeout = some (.num 30000) ∧
    (createErrorFromStatus 408 "w"
      (some (.obj [("timeout", .num 7000)]))).timeout = some (.num 7000) :=
  ⟨(c6_timeout408_field "w" none).1 rfl,
   (c6_timeout408_field "w" (some (.obj [("timeout", .str "")]))).2.1 (.str "") rfl rfl,
   (c6_timeout408_field "w" (some (.obj [("timeout", .num 7000)]))).2.2 (.num 7000) rfl
     (by decide)⟩

/-! ## Dispatcher helper lemmas -/

theorem jsSelect_of_truthy (a : Option JsonValue) (v b : JsonValue)
    (h : a = some v) (hv : truthy v = true) : jsSelect a b = v := by
  rw [h]
  simp [jsSelect, hv]

theorem jsSelect_of_falsy (a : Option JsonValue) (b : JsonValue)
    (h : jsTruthyOpt a = false) : jsSelect a b = b := by
  cases a with
  | none => rfl
  | some v =>
    simp only [jsTruthyOpt] at h
    simp [jsSelect, h]

theorem request_success_step (c : HypersaveClient) (me pa : String)
    (b : Option JsonValue) (ou : Option String) (resp : HttpResponse) :
    c.request me pa b ou (.success resp) =
      match handleResponse resp with
      | .ok v => .ok v
      | .error t => .error (catchBlock c.timeout t) := rfl

theorem request_failure_step (c : HypersaveClient) (me pa : String)
    (b : Option JsonValue) (ou : Option String) (raw : JsRaw) :
    c.request me pa b ou (.failure raw) =
      .error (catchBlock c.timeout (.js raw)) := rfl

theorem handleResponse_json_ok (resp : HttpResponse) (data : JsonValue)
    (hct : isJsonCT resp.contentType = true) (hp : resp.parsed = .ok data)
    (hok : respOk resp.status = true) (hsf : successIsFalse data = false) :
    handleResponse resp = .ok data := by
  unfold handleResponse
  rw [hct, hp]
  simp [hok, hsf]

theorem handleResponse_json_err (resp : HttpResponse) (data : JsonValue)
    (hct : isJsonCT resp.contentType = true) (hp : resp.parsed = .ok data)
    (hfail : respOk resp.status = false ∨ successIsFalse data = true) :
    handleResponse resp = .error (.hypersave (createErrorFromStatus resp.status
      (jsString (resolveErrorMessage data)) (jGet data "details"))) := by
  unfold handleResponse
  rw [hct, hp]
  rcases hfail with h | h <;> simp [h]

/-! ## Claims about the dispatcher, JSON branch -/

/-- Claim C2: for a JSON response the call fails exactly when the HTTP
status is outside the success range or the body carries `success ===
false`; on failure the surfaced error is the status classification of the
resolved message (`body.error`, else `body.message`, else "Request
failed") and `body.details`; otherwise the parsed body is returned
unchanged. -/
theorem c2_request_json_semantics (c : HypersaveClient) (me pa : String)
    (b : Option JsonValue) (ou : Option String) (resp : HttpResponse)
    (data : JsonValue)
    (hct : isJsonCT resp.contentType = true) (hp : resp.parsed = .ok data) :
    ((respOk resp.status = true ∧ successIsFalse data = false) →
       c.request me pa b ou (.success resp) = .ok data) ∧
    ((respOk resp.status = false ∨ successIsFalse data = true) →
       c.request me pa b ou (.success resp) =
         .error (createErrorFromStatus resp.status
           (jsString (resolveErrorMessage data)) (jGet data "details"))) ∧
    (∀ v, jGet data "error" = some v → truthy v = true →
       resolveErrorMessage data = v) ∧
    (jsTruthyOpt (jGet data "error") = false →
       ∀ w, jGet data "message" = some w → truthy w = true →
       resolveErrorMessage data = w) ∧
    (jsTruthyOpt (jGet data "error") = false →
       jsTruthyOpt (jGet data "message") = false →
       resolveErrorMessage data = .str "Request failed") := by
  refine ⟨?_, ?_, ?_, ?_, ?_⟩
  · intro ⟨hok, hsf⟩
    rw [request_success_step, handleResponse_json_ok resp data hct hp hok hsf]
  · intro hfail
    exact request_rethrows_internal c me pa b ou resp _
      (handleResponse_json_err resp data hct hp hfail)
  · intro v h hv
    exact jsSelect_of_truthy _ v _ h hv
  · intro he w h hw
    unfold resolveErrorMessage
    rw [jsSelect_of_falsy _ _ he]
    exact jsSelect_of_truthy _ w _ h hw
  · intro he hm
    unfold resolveErrorMessage
    rw [jsSelect_of_falsy _ _ he, jsSelect_of_falsy _ _ hm]

def sampleClient : HypersaveClient :=
  { apiKey := "test-key", baseUrl := "https://api.hypersave.io",
    timeout := 30000, defaultUserId := none }

def body404 : JsonValue := .obj [("success", .bool false), ("message", .str "not found")]

def resp404 : HttpResponse :=
  { status := 404, contentType := some "application/json", rawText := "",
    parsed := .ok body404 }

def body200q : JsonValue := .obj [("success", .bool false), ("error", .str "quota exceeded")]

def resp200q : HttpResponse :=
  { status := 200, contentType := some "application/json", rawText := "",
    parsed := .ok body200q }

/-- Witness for C2: status 404 with `message` only gives NotFound "not
found"; status 200 with `success:false` and `error` gives the Generic base
error "quota exceeded". -/
theorem c2_witness :
    sampleClient.request "POST" "/v1/ask" none none (.success resp404) =
      .error (createErrorFromStatus 404
        (jsString (resolveErrorMessage body404)) (jGet body404 "details")) ∧
    resolveErrorMessage body404 = .str "not found" ∧
    (createErrorFromStatus 404
      (jsString (resolveErrorMessage body404)) (jGet body404 "details")).name =
      "NotFoundError" ∧
    sampleClient.request "POST" "/v1/ask" none none (.success resp200q) =
      .error (createErrorFromStatus 200
        (jsString (resolveErrorMessage body200q)) (jGet body200q "details")) ∧
    resolveErrorMessage body200q = .str "quota exceeded" ∧
    (createErrorFromStatus 200
      (jsString (resolveErrorMessage body200q)) (jGet body200q "details")).name =
      "HypersaveError" :=
  ⟨(c2_request_json_semantics sampleClient "POST" "/v1/ask" none none resp404 body404
      rfl rfl).2.1 (Or.inl rfl),
   (c2_request_json_semantics sampleClient "POST" "/v1/ask" none none resp404 body404
      rfl rfl).2.2.2.1 rfl (.str "not found") rfl rfl,
   rfl,
   (c2_request_json_semantics sampleClient "POST" "/v1/ask" none none resp200q body200q
      rfl rfl).2.1 (Or.inr rfl),
   (c2_request_json_semantics sampleClient "POST" "/v1/ask" none none resp200q body200q
      rfl rfl).2.2.1 (.str "quota exceeded") rfl rfl,
   rfl⟩

/-- Claim C9: with a success-range status and a parsed JSON body, the call
fails only on a strict `success === false`: the call succeeds iff the
`success` field is not the boolean `false`; in particular a missing field
or any non-boolean value there (0, null, "false", …) yields success. -/
theorem c9_success_requires_strict_false (c : HypersaveClient) (me pa : String)
    (b : Option JsonValue) (ou : Option String) (resp : HttpResponse)
    (data : JsonValue)
    (hct : isJsonCT resp.contentType = true) (hp : resp.parsed = .ok data)
    (hok : respOk resp.status = true) :
    (c.request me pa b ou (.success resp) = .ok data ↔ successIsFalse data = false) ∧
    (successIsFalse data = true ↔ jGet data "success" = some (.bool false)) ∧
    (jGet data "success" = none → c.request me pa b ou (.success resp) = .ok data) ∧
    (∀ v, jGet data "success" = some v → v ≠ .bool false →
       c.request me pa b ou (.success resp) = .ok data) := by
  have hsucc : ∀ hsf : successIsFalse data = false,
      c.request me pa b ou (.success resp) = .ok data := fun hsf => by
    rw [request_success_step, handleResponse_json_ok resp data hct hp hok hsf]
  have hiff2 : successIsFalse data = true ↔ jGet data "success" = some (.bool false) := by
    constructor
    · intro h
      unfold successIsFalse at h
      split at h
      · assumption
      · cases h
    · intro h
      unfold successIsFalse
      rw [h]
  refine ⟨⟨?_, hsucc⟩, hiff2, ?_, ?_⟩
  · intro hreq
    cases hsf : successIsFalse data with
    | false => rfl
    | true =>
      rw [request_success_step,
        handleResponse_json_err resp data hct hp (Or.inr hsf)] at hreq
      cases hreq
  · intro h
    apply hsucc
    unfold successIsFalse
    rw [h]
  · intro v h hv
    apply hsucc
    unfold successIsFalse
    rw [h]
    rcases v with _ | bb | n | s | xs | fs
    · rfl
    · cases bb
      · exact absurd rfl hv
      · rfl
    · rfl
    · rfl
    · rfl
    · rfl

def bodyS0 : JsonValue := .obj [("success", .num 0), ("id", .str "a")]

def respS0 : HttpResponse :=
  { status := 200, contentType := some "application/json", rawText := "",
    parsed := .ok bodyS0 }

def bodySNull : JsonValue := .obj [("success", .null)]

def respSNull : HttpResponse :=
  { status := 200, contentType := some "application/json", rawText := "",
    parsed := .ok bodySNull }

def bodySStr : JsonValue := .obj [("success", .str "false")]

def respSStr : HttpResponse :=
  { status := 200, contentType := some "application/json", rawText := "",
    parsed := .ok bodySStr }

def bodyNoS : JsonValue := .obj [("ok", .bool true)]

def respNoS : HttpResponse :=
  { status := 200, contentType := some "application/json", rawText := "",
    parsed := .ok bodyNoS }

/-- Witness for C9: bodies with `success` equal to 0, null, "false", or
with no `success` field at all, are all returned as success values. -/
theorem c9_witness :
    sampleClient.request "GET" "/p" none none (.success respS0) = .ok bodyS0 ∧
    sampleClient.request "GET" "/p" none none (.success respSNull) = .ok bodySNull ∧
    sampleClient.request "GET" "/p" none none (.success respSStr) = .ok bodySStr ∧
    sampleClient.request "GET" "/p" none none (.success respNoS) = .ok bodyNoS :=
  ⟨(c9_success_requires_strict_false sampleClient "GET" "/p" none none respS0 bodyS0
      rfl rfl rfl).2.2.2 (.num 0) rfl (fun h => JsonValue.noConfusion h),
   (c9_success_requires_strict_false sampleClient "GET" "/p" none none respSNull bodySNull
      rfl rfl rfl).2.2.2 .null rfl (fun h => JsonValue.noConfusion h),
   (c9_success_requires_strict_false sampleClient "GET" "/p" none none respSStr bodySStr
      rfl rfl rfl).2.2.2 (.str "false") rfl (fun h => JsonValue.noConfusion h),
   (c9_success_requires_strict_false sampleClient "GET" "/p" none none respNoS bodyNoS
      rfl rfl rfl).2.2.1 rfl⟩

/-! ## Claims about the dispatcher, catch block and non-JSON branch -/

/-- Claim C3: every exception raised inside `request` is translated before
leaving: an abort becomes Timeout carrying exactly the configured timeout;
a transport TypeError mentioning fetch becomes Network with the original
exception as cause; an SDK error thrown internally is re-raised as the
identical value; anything else becomes the Generic base error with the
exception's message (or "Unknown error") and the exception as cause.  The
codomain of `request` is `Except HypersaveError`, so no raw exception
escapes untranslated. -/
theorem c3_catch_translation (c : HypersaveClient) (me pa : String)
    (b : Option JsonValue) (ou : Option String) :
    (∀ msg, c.request me pa b ou (.failure ⟨"AbortError", msg⟩) =
        .error (TimeoutError (.num c.timeout) none)) ∧
    ((TimeoutError (.num c.timeout) none).timeout = some (.num c.timeout)) ∧
    (∀ msg, strIncludes msg "fetch" = true →
        c.request me pa b ou (.failure ⟨"TypeError", msg⟩) =
          .error (NetworkError "Failed to connect to Hypersave API"
            (some ⟨"TypeError", msg⟩))) ∧
    (∀ resp he, handleResponse resp = .error (.hypersave he) →
        c.request me pa b ou (.success resp) = .error he) ∧
    (∀ nm msg, nm ≠ "AbortError" → ¬(nm = "TypeError" ∧ strIncludes msg "fetch" = true) →
        c.request me pa b ou (.failure ⟨nm, msg⟩) =
          .error (mkHypersaveError (jsOrStr msg "Unknown error") none (some ⟨nm, msg⟩)) ∧
        (msg ≠ "" → jsOrStr msg "Unknown error" = msg) ∧
        (msg = "" → jsOrStr msg "Unknown error" = "Unknown error")) := by
  refine ⟨fun msg => rfl, rfl, ?_, ?_, ?_⟩
  · intro msg h
    rw [request_failure_step]
    unfold catchBlock Thrown.errName Thrown.errMessage Thrown.toRaw
    simp [h]
  · intro resp he h
    exact request_rethrows_internal c me pa b ou resp he h
  · intro nm msg h1 h2
    have hcond : ((nm == "TypeError") && strIncludes msg "fetch") = false := by
      by_cases ht : nm = "TypeError"
      · subst ht
        simp only [beq_self_eq_true, Bool.true_and]
        rw [Bool.eq_false_iff]
        intro hc
        exact h2 ⟨rfl, hc⟩
      · simp [ht]
    refine ⟨?_, fun hne => by simp [jsOrStr, hne], fun he => by rw [he]; rfl⟩
    rw [request_failure_step]
    unfold catchBlock Thrown.errName Thrown.errMessage
    simp only [hcond]
    simp [h1]

def respPong : HttpResponse :=
  { status := 200, contentType := some "text/plain", rawText := "pong",
    parsed := .error ⟨"SyntaxError", "Unexpected token"⟩ }

/-- Witness for C3: an abort, a fetch TypeError, an internally thrown
Parse error, and an unknown exception, each translated as claimed. -/
theorem c3_witness :
    sampleClient.request "GET" "/p" none none (.failure ⟨"AbortError", "aborted"⟩) =
      .error (TimeoutError (.num 30000) none) ∧
    sampleClient.request "GET" "/p" none none (.failure ⟨"TypeError", "fetch failed"⟩) =
      .error (NetworkError "Failed to connect to Hypersave API"
        (some ⟨"TypeError", "fetch failed"⟩)) ∧
    sampleClient.request "GET" "/p" none none (.success respPong) =
      .error (ParseError "Expected JSON response" (some "pong")) ∧
    sampleClient.request "GET" "/p" none none (.failure ⟨"SyntaxError", ""⟩) =
      .error (mkHypersaveError "Unknown error" none (some ⟨"SyntaxError", ""⟩)) :=
  ⟨(c3_catch_translation sampleClient "GET" "/p" none none).1 "aborted",
   (c3_catch_translation sampleClient "GET" "/p" none none).2.2.1 "fetch failed" rfl,
   (c3_catch_translation sampleClient "GET" "/p" none none).2.2.2.1 respPong
     (ParseError "Expected JSON response" (some "pong")) rfl,
   ((c3_catch_translation sampleClient "GET" "/p" none none).2.2.2.2 "SyntaxError" ""
     (by decide) (by decide)).1⟩

theorem handleResponse_nonjson_fail (resp : HttpResponse)
    (hct : isJsonCT resp.contentType = false) (hbad : respOk resp.status = false) :
    handleResponse resp = .error (.hypersave (createErrorFromStatus resp.status
      (jsOrStr resp.rawText "Request failed") none)) := by
  unfold handleResponse
  rw [hct]
  simp [hbad]

theorem handleResponse_nonjson_parse (resp : HttpResponse)
    (hct : isJsonCT resp.contentType = false) (hok : respOk resp.status = true) :
    handleResponse resp =
      .error (.hypersave (ParseError "Expected JSON response" (some resp.rawText))) := by
  unfold handleResponse
  rw [hct]
  simp [hok]

def respEmpty500 : HttpResponse :=
  { status := 500, contentType := some "text/plain", rawText := "",
    parsed := .error ⟨"SyntaxError", "Unexpected token"⟩ }

/-- Counterexample to Claim C4 as stated: a non-JSON failure response with
an EMPTY raw text body is not classified with the raw text as message —
the source substitutes the fallback (`text || 'Request failed'`), so the
surfaced error differs from `createErrorFromStatus 500 "" none`. -/
theorem c4_counterexample :
    sampleClient.request "GET" "/v1/usage" none none (.success respEmpty500) ≠
      .error (createErrorFromStatus 500 "" none) := by
  intro h
  have h1 := congrArg
    (fun r => match r with | Except.error e => e.message | Except.ok _ => "") h
  exact absurd h1 (by decide)

/-- Claim C4 (amended): for a response whose content-type is absent or not
JSON, `request` never succeeds: on a failure status it fails with the
status classification of the raw text body when that text is nonempty
(an empty body is replaced by the fallback message "Request failed"); on
a success status it fails with Parse("Expected JSON response",
rawResponse = raw text). -/
theorem c4_nonjson_never_succeeds (c : HypersaveClient) (me pa : String)
    (b : Option JsonValue) (ou : Option String) (resp : HttpResponse)
    (hct : isJsonCT resp.contentType = false) :
    (∀ v, c.request me pa b ou (.success resp) ≠ .ok v) ∧
    (respOk resp.status = false →
       c.request me pa b ou (.success resp) =
         .error (createErrorFromStatus resp.status
           (jsOrStr resp.rawText "Request failed") none)) ∧
    (respOk resp.status = true →
       c.request me pa b ou (.success resp) =
         .error (ParseError "Expected JSON response" (some resp.rawText))) ∧
    (resp.rawText ≠ "" → jsOrStr resp.rawText "Request failed" = resp.rawText) := by
  have hfail := fun hbad => request_rethrows_internal c me pa b ou resp _
    (handleResponse_nonjson_fail resp hct hbad)
  have hparse := fun hok => request_rethrows_internal c me pa b ou resp _
    (handleResponse_nonjson_parse resp hct hok)
  refine ⟨?_, hfail, hparse, fun hne => by simp [jsOrStr, hne]⟩
  intro v hv
  cases hok : respOk resp.status with
  | false =>
    rw [hfail hok] at hv
    cases hv
  | true =>
    rw [hparse hok] at hv
    cases hv

def resp503t : HttpResponse :=
  { status := 503, contentType := none, rawText := "oops",
    parsed := .error ⟨"SyntaxError", "Unexpected token"⟩ }

/-- Witness for C4 (amended): text/plain 200 "pong" fails with Parse
carrying rawResponse "pong"; a 503 with no content-type fails with the
status classification of its nonempty text body; neither is a success. -/
theorem c4_witness :
    sampleClient.request "GET" "/p" none none (.success respPong) =
      .error (ParseError "Expected JSON response" (some "pong")) ∧
    sampleClient.request "GET" "/p" none none (.success resp503t) =
      .error (createErrorFromStatus 503 (jsOrStr "oops" "Request failed") none) ∧
    sampleClient.request "GET" "/p" none none (.success respPong) ≠ .ok (.obj []) :=
  ⟨(c4_nonjson_never_succeeds sampleClient "GET" "/p" none none respPong rfl).2.2.1 rfl,
   (c4_nonjson_never_succeeds sampleClient "GET" "/p" none none resp503t rfl).2.1 rfl,
   (c4_nonjson_never_succeeds sampleClient "GET" "/p" none none respPong rfl).1 (.obj [])⟩

/-! ## Claims about headers and the constructor -/

theorem jsSelectOpt_truthy (a b : Option JsonValue) (v : JsonValue)
    (h : a = some v) (hv : truthy v = true) : jsSelectOpt a b = some v := by
  rw [h]
  simp [jsSelectOpt, hv]

theorem jsSelectOpt_falsy (a b : Option JsonValue)
    (h : jsTruthyOpt a = false) : jsSelectOpt a b = b := by
  cases a with
  | none => rfl
  | some v =>
    simp only [jsTruthyOpt] at h
    simp [jsSelectOpt, h]

theorem userIdHeader_of_truthy (c : HypersaveClient) (b : Option JsonValue)
    (ou : Option String) (v : JsonValue)
    (h : effectiveUserId c b ou = some v) (hv : truthy v = true) :
    userIdHeader c b ou = some v := by
  unfold userIdHeader
  rw [h]
  simp [hv]

/-- Claim C5: the `x-user-id` header value resolves with precedence
per-call override, then the `userId` field of the body, then the
configured default, each level applying only when truthy; when nothing
truthy resolves the header is omitted. -/
theorem c5_userId_precedence :
    (∀ c b u, u ≠ "" → userIdHeader c b (some u) = some (.str u)) ∧
    (∀ c b ou v, jsTruthyOpt (ou.map .str) = false →
       b.bind (fun x => jGet x "userId") = some v → truthy v = true →
       userIdHeader c b ou = some v) ∧
    (∀ c b ou du, jsTruthyOpt (ou.map .str) = false →
       jsTruthyOpt (b.bind (fun x => jGet x "userId")) = false →
       c.defaultUserId = some du → du ≠ "" →
       userIdHeader c b ou = some (.str du)) ∧
    (∀ c b ou, jsTruthyOpt (ou.map .str) = false →
       jsTruthyOpt (b.bind (fun x => jGet x "userId")) = false →
       jsTruthyOpt (c.defaultUserId.map .str) = false →
       userIdHeader c b ou = none ∧
       requestHeaders c b ou =
         [("Content-Type", "application/json"), ("X-API-Key", c.apiKey)]) ∧
    (∀ c b ou v, userIdHeader c b ou = some v →
       requestHeaders c b ou =
         [("Content-Type", "application/json"), ("X-API-Key", c.apiKey),
          ("x-user-id", jsString v)]) := by
  refine ⟨?_, ?_, ?_, ?_, ?_⟩
  · intro c b u hu
    have hv : truthy (.str u) = true := by simp [truthy, hu]
    apply userIdHeader_of_truthy c b (some u) (.str u) _ hv
    unfold effectiveUserId
    exact jsSelectOpt_truthy _ _ _ rfl hv
  · intro c b ou v hou hbv hv
    apply userIdHeader_of_truthy c b ou v _ hv
    unfold effectiveUserId
    rw [jsSelectOpt_falsy _ _ hou]
    exact jsSelectOpt_truthy _ _ _ hbv hv
  · intro c b ou du hou hbv hdu hne
    have hv : truthy (.str du) = true := by simp [truthy, hne]
    apply userIdHeader_of_truthy c b ou (.str du) _ hv
    unfold effectiveUserId
    rw [jsSelectOpt_falsy _ _ hou, jsSelectOpt_falsy _ _ hbv, hdu]
    rfl
  · intro c b ou hou hbv hdu
    have heff : effectiveUserId c b ou = c.defaultUserId.map .str := by
      unfold effectiveUserId
      rw [jsSelectOpt_falsy _ _ hou, jsSelectOpt_falsy _ _ hbv]
    have hhdr : userIdHeader c b ou = none := by
      unfold userIdHeader
      rw [heff]
      cases hc : c.defaultUserId.map JsonValue.str with
      | none => rfl
      | some v =>
        rw [hc] at hdu
        simp only [jsTruthyOpt] at hdu
        simp [hdu]
    refine ⟨hhdr, ?_⟩
    unfold requestHeaders
    rw [hhdr]
  · intro c b ou v h
    unfold requestHeaders
    rw [h]
    rfl

def clientWithDefault : HypersaveClient :=
  { apiKey := "test-key", baseUrl := "https://api.hypersave.io",
    timeout := 30000, defaultUserId := some "cfg-user" }

def bodyWithUser : JsonValue := .obj [("q", .str "x"), ("userId", .str "body-user")]

/-- Witness for C5: the four orderings with distinct values at each
level. -/
theorem c5_witness :
    userIdHeader clientWithDefault (some bodyWithUser) (some "call-user") =
      some (.str "call-user") ∧
    userIdHeader clientWithDefault (some bodyWithUser) none = some (.str "body-user") ∧
    userIdHeader clientWithDefault (some (.obj [("q", .str "x")])) none =
      some (.str "cfg-user") ∧
    userIdHeader sampleClient none none = none :=
  ⟨(c5_userId_precedence).1 clientWithDefault (some bodyWithUser) "call-user" (by decide),
   (c5_userId_precedence).2.1 clientWithDefault (some bodyWithUser) none
     (.str "body-user") rfl rfl rfl,
   (c5_userId_precedence).2.2.1 clientWithDefault (some (.obj [("q", .str "x")])) none
     "cfg-user" rfl rfl rfl (by decide),
   ((c5_userId_precedence).2.2.2.1 sampleClient none none rfl rfl rfl).1⟩

/-- Claim C7: construction fails immediately with an Authentication error
exactly when the API key is empty (the model performs no network action:
`mkClient` is a pure function of the configuration); otherwise it
produces the read-only configuration record with `baseUrl` defaulting to
"https://api.hypersave.io" and a trailing slash stripped. -/
theorem c7_constructor (config : HypersaveConfig) :
    (config.apiKey = "" →
       mkClient config = .error (AuthenticationError "API key is required") ∧
       (AuthenticationError "API key is required").name = "AuthenticationError" ∧
       (AuthenticationError "API key is required").statusCode = some 401) ∧
    (config.apiKey ≠ "" →
       mkClient config = .ok
         { apiKey := config.apiKey,
           baseUrl := stripTrailingSlash (jsOrStrOpt config.baseUrl DEFAULT_BASE_URL),
           timeout := jsOrIntOpt config.timeout DEFAULT_TIMEOUT,
           defaultUserId := config.userId } ∧
       ((config.baseUrl = none ∨ config.baseUrl = some "") →
          stripTrailingSlash (jsOrStrOpt config.baseUrl DEFAULT_BASE_URL) =
            "https://api.hypersave.io") ∧
       (∀ s, config.baseUrl = some s → s ≠ "" →
          stripTrailingSlash (jsOrStrOpt config.baseUrl DEFAULT_BASE_URL) =
            (if s.data.getLast? = some '/' then String.mk s.data.dropLast else s))) := by
  constructor
  · intro h
    refine ⟨?_, rfl, rfl⟩
    simp [mkClient, h]
  · intro h
    refine ⟨by simp [mkClient, h], ?_, ?_⟩
    · rintro (hb | hb) <;> rw [hb] <;> rfl
    · intro s hb hs
      rw [hb]
      simp [jsOrStrOpt, jsOrStr, hs, stripTrailingSlash]

def cfgEmptyKey : HypersaveConfig :=
  { apiKey := "", baseUrl := none, timeout := none, userId := none }

def cfgSlash : HypersaveConfig :=
  { apiKey := "k", baseUrl := some "https://x.io/", timeout := none, userId := none }

def cfgPlain : HypersaveConfig :=
  { apiKey := "k2", baseUrl := none, timeout := none, userId := none }

/-- Witness for C7: the empty key is rejected; a nonempty key with a
slash-terminated base URL yields the normalized configuration; an absent
base URL defaults. -/
theorem c7_witness :
    mkClient cfgEmptyKey = .error (AuthenticationError "API key is required") ∧
    mkClient cfgSlash = .ok (HypersaveClient.mk "k"
      (stripTrailingSlash (jsOrStrOpt (some "https://x.io/") DEFAULT_BASE_URL))
      (jsOrIntOpt none DEFAULT_TIMEOUT) none) ∧
    stripTrailingSlash (jsOrStrOpt (some "https://x.io/") DEFAULT_BASE_URL) =
      "https://x.io" ∧
    mkClient cfgPlain = .ok (HypersaveClient.mk "k2"
      (stripTrailingSlash (jsOrStrOpt none DEFAULT_BASE_URL))
      (jsOrIntOpt none DEFAULT_TIMEOUT) none) ∧
    stripTrailingSlash (jsOrStrOpt none DEFAULT_BASE_URL) = "https://api.hypersave.io" :=
  ⟨((c7_constructor cfgEmptyKey).1 rfl).1,
   ((c7_constructor cfgSlash).2 (by decide)).1,
   by rfl,
   ((c7_constructor cfgPlain).2 (by decide)).1,
   (c7_constructor cfgPlain).2 (by decide) |>.2.1 (Or.inl rfl)⟩

/-- Claim C10: a configured timeout of 0 is falsy, so the constructor
replaces it with the 30000 default, and a Timeout error produced by the
abort path of `request` for such a client carries 30000, never 0. -/
theorem c10_timeout_zero_defaults (config : HypersaveConfig)
    (h0 : config.timeout = some 0) (hk : config.apiKey ≠ "") :
    ∃ c, mkClient config = .ok c ∧ c.timeout = 30000 ∧
      (∀ me pa b ou msg, c.request me pa b ou (.failure ⟨"AbortError", msg⟩) =
        .error (TimeoutError (.num 30000) none)) ∧
      (TimeoutError (.num 30000) none).timeout = some (.num 30000) := by
  refine ⟨HypersaveClient.mk config.apiKey
      (stripTrailingSlash (jsOrStrOpt config.baseUrl DEFAULT_BASE_URL))
      (jsOrIntOpt config.timeout DEFAULT_TIMEOUT) config.userId,
    by simp [mkClient, hk], ?_, ?_, rfl⟩
  · show jsOrIntOpt config.timeout DEFAULT_TIMEOUT = 30000
    rw [h0]
    rfl
  · intro me pa b ou msg
    rw [request_failure_step]
    have ht : jsOrIntOpt config.timeout DEFAULT_TIMEOUT = 30000 := by rw [h0]; rfl
    show Except.error (TimeoutError (.num (jsOrIntOpt config.timeout DEFAULT_TIMEOUT))
      none) = _
    rw [ht]

def cfgZeroTimeout : HypersaveConfig :=
  { apiKey := "k", baseUrl := none, timeout := some 0, userId := none }

/-- Witness for C10 at a concrete configuration with timeout 0. -/
theorem c10_witness :
    ∃ c, mkClient cfgZeroTimeout = .ok c ∧ c.timeout = 30000 ∧
      (∀ me pa b ou msg, c.request me pa b ou (.failure ⟨"AbortError", msg⟩) =
        .error (TimeoutError (.num 30000) none)) ∧
      (TimeoutError (.num 30000) none).timeout = some (.num 30000) :=
  c10_timeout_zero_defaults cfgZeroTimeout rfl (by decide)
